import Mathlib

/-!
Shallow embedding of the self-correcting Graph-RAG query pipeline of
`backend/agent.py` (query generator, query executor, retry router, response
synthesizer, failure handler, batch orchestrator `process_query`, and the
streaming entry point `process_query_streaming`), together with proofs of the
specification claims about it.

External collaborators are modelled as explicit function parameters:
the generative model is a function from the variable parts of the prompt
(the error-context block and the question; the schema and few-shot blocks are
fixed constants, so any response function of the full prompt factors through
these variable parts) to its text response, and the graph store is a function
from a query string to either a row list or an error message, indexed by the
invocation count so that successive executor calls may behave differently.
Python dictionaries become association lists, `None` becomes `Option.none`,
and raised exceptions become `Except.error` carrying `str(e)`.
-/

/-! ### Python string primitives used by the pipeline -/

/-- The whitespace characters stripped by Python's `str.strip()` (its ASCII
core: space, tab, newline, carriage return, vertical tab, form feed). -/
def isPySpace (c : Char) : Bool :=
  c = ' ' || c = '\t' || c = '\n' || c = '\r' || c = '\x0b' || c = '\x0c'

/-- `str.strip()` on a character list: drop leading and trailing whitespace. -/
def pyStripL (l : List Char) : List Char :=
  List.rdropWhile isPySpace (List.dropWhile isPySpace l)

/-- `str.strip()` on strings. -/
def pyStrip (s : String) : String :=
  String.mk (pyStripL s.data)

/-- The characters of `s` strictly before the first occurrence of the
(non-empty) separator `sep`; all of `s` when `sep` does not occur.
This is Python's `s.split(sep)[0]`. -/
def takeBefore (sep : List Char) : List Char → List Char
  | [] => []
  | c :: rest =>
      if sep.isPrefixOf (c :: rest) then []
      else c :: takeBefore sep rest

/-- The characters of `s` strictly after the end of the first occurrence of
the separator `sep` (empty when `sep` does not occur). -/
def dropThrough (sep : List Char) : List Char → List Char
  | [] => []
  | c :: rest =>
      if sep.isPrefixOf (c :: rest) then (c :: rest).drop sep.length
      else dropThrough sep rest

/-- Python's `s.split(sep)[1]`: the segment between the first occurrence of
`sep` and the next non-overlapping occurrence (the rest of the string when
`sep` occurs only once). Only used under a guard that `sep` occurs in `s`. -/
def pySplitMid (sep l : List Char) : List Char :=
  takeBefore sep (dropThrough sep l)

/-! ### Cypher extraction (`query_generator`'s fence stripping)

Source (`agent.py`):
```
cypher = response.strip()
if "```cypher" in cypher:
    cypher = cypher.split("```cypher")[1].split("```")[0].strip()
elif "```" in cypher:
    cypher = cypher.split("```")[1].split("```")[0].strip()
```
The same code is repeated verbatim in `process_query_streaming`. -/

/-- Extract the Cypher query from a raw model response, handling markdown
code fences exactly as the source does. -/
def extractCypher (response : String) : String :=
  let cypher := pyStrip response
  if "```cypher".data <:+: cypher.data then
    pyStrip (String.mk (takeBefore "```".data (pySplitMid "```cypher".data cypher.data)))
  else if "```".data <:+: cypher.data then
    pyStrip (String.mk (takeBefore "```".data (pySplitMid "```".data cypher.data)))
  else
    cypher

/-! ### Values returned by the graph store

A record field value is either a plain Python value (`None`, bool, int,
string, list, dict) or a store-native handle: a temporal value (anything with
an `isoformat` method; `iso` is the string that method returns) or a
node/relationship object (anything with a `__dict__`; `props` is its property
mapping, obtained by `dict(value)`). -/

inductive NeoVal where
  | null
  | bool (b : Bool)
  | int (n : Int)
  | str (s : String)
  | temporal (iso : String)
  | node (props : List (String × NeoVal))
  | list (xs : List NeoVal)
  | map (entries : List (String × NeoVal))
deriving Repr

/-- One result record: a mapping from output column name to value. -/
abbrev Record := List (String × NeoVal)

/-- The per-value normalization step of `query_executor`:
`isoformat()` for temporal values, `dict(value)` for node-like values,
pass-through otherwise.  Note it acts on the top level of the value only. -/
def cleanValue : NeoVal → NeoVal
  | .temporal iso => .str iso
  | .node props => .map props
  | v => v

/-- Normalization of one record (`clean_record` construction in the source). -/
def cleanRecord (r : Record) : Record :=
  r.map (fun kv => (kv.1, cleanValue kv.2))

mutual
/-- A value is plain when, at every nesting depth, it is a scalar, a string,
or a plain mapping/sequence — never a store-native temporal or node handle. -/
def isPlain : NeoVal → Bool
  | .null => true
  | .bool _ => true
  | .int _ => true
  | .str _ => true
  | .temporal _ => false
  | .node _ => false
  | .list xs => isPlainList xs
  | .map entries => isPlainEntries entries

def isPlainList : List NeoVal → Bool
  | [] => true
  | x :: xs => isPlain x && isPlainList xs

def isPlainEntries : List (String × NeoVal) → Bool
  | [] => true
  | kv :: rest => isPlain kv.2 && isPlainEntries rest
end

/-- A value is, at its top level, not a store-native handle. -/
def notHandleTop : NeoVal → Bool
  | .temporal _ => false
  | .node _ => false
  | _ => true

/-- A record is plain when all its field values are plain at every depth. -/
def isPlainRecord (r : Record) : Bool :=
  isPlainEntries r

/-! ### Agent state and configuration -/

/-- Maximum number of self-correction retries (`MAX_RETRIES` in the source). -/
def MAX_RETRIES : Nat := 3

/-- The `AgentState` TypedDict that flows through the LangGraph workflow. -/
structure AgentState where
  question : String
  cypher_query : String
  db_results : List Record
  error : Option String
  retry_count : Nat
  final_answer : String
  structured_data : Option (List Record)
deriving Repr

/-- Python truthiness of `state.get("error")`: `None` and the empty string
are falsy, every other string is truthy. -/
def errTruthy : Option String → Bool
  | none => false
  | some s => !s.isEmpty

/-- The three outcomes of the conditional edge after `query_executor`. -/
inductive Route where
  | retry
  | synthesize
  | fail
deriving Repr, DecidableEq

/-! ### Agent node functions -/

/-- The correction block inserted into the generation prompt on a retry
(`error_context` in `query_generator`): present exactly when the state holds
a truthy error and a positive retry count. -/
def errorContext (state : AgentState) : String :=
  if errTruthy state.error && decide (0 < state.retry_count) then
    "\n## Previous Query Error:\nYour previous query failed with error: "
      ++ state.error.getD ""
      ++ "\nPrevious query was: " ++ state.cypher_query
      ++ "\n\nPlease fix the syntax error and try again. Common issues:\n- Use correct property names from the schema\n- Ensure proper Cypher syntax\n- Check relationship directions\n"
  else ""

/-- Node 1, `query_generator`: invoke the generative model on the prompt
(whose variable parts are the error context and the question), strip any code
fence from the response, store it as `cypher_query`, and clear the error. -/
def query_generator (llm : String → String → String) (state : AgentState) : AgentState :=
  let response := llm (errorContext state) state.question
  { state with cypher_query := extractCypher response, error := none }

/-- Node 2, `query_executor`: run the Cypher against the store.  On success,
normalize each record and clear the error; on an exception, set `db_results`
to the empty list, record `str(e)` as the error, and increment `retry_count`
by exactly one. -/
def query_executor (store : String → Except String (List Record))
    (state : AgentState) : AgentState :=
  match store state.cypher_query with
  | .ok results =>
      { state with db_results := results.map cleanRecord, error := none }
  | .error e =>
      { state with db_results := [], error := some e,
                   retry_count := state.retry_count + 1 }

/-- The fixed text before the question in the batch no-results answer. -/
def cannedNoResultsPre : String :=
  "I couldn\x27t find any results for your query: \x27"

/-- The fixed text after the question in the batch no-results answer. -/
def cannedNoResultsPost : String :=
  "\x27. This might mean there\x27s no matching data, or you could try rephrasing your question."

/-- The canned no-results answer of the batch `response_synthesizer`. -/
def cannedNoResults (question : String) : String :=
  cannedNoResultsPre ++ question ++ cannedNoResultsPost

mutual
/-- Python `str(value)` for a normalized value, as used when formatting rows
into the synthesis prompt. -/
def reprVal : NeoVal → String
  | .null => "None"
  | .bool b => if b then "True" else "False"
  | .int n => toString n
  | .str s => "\x27" ++ s ++ "\x27"
  | .temporal iso => iso
  | .node props => "\x7b" ++ reprEntries props ++ "\x7d"
  | .list xs => "[" ++ reprList xs ++ "]"
  | .map entries => "\x7b" ++ reprEntries entries ++ "\x7d"

def reprList : List NeoVal → String
  | [] => ""
  | [x] => reprVal x
  | x :: xs => reprVal x ++ ", " ++ reprList xs

def reprEntries : List (String × NeoVal) → String
  | [] => ""
  | [kv] => "\x27" ++ kv.1 ++ "\x27: " ++ reprVal kv.2
  | kv :: rest => "\x27" ++ kv.1 ++ "\x27: " ++ reprVal kv.2 ++ ", " ++ reprEntries rest
end

/-- Python `str(record)` for one record (a dict). -/
def reprRecord (r : Record) : String :=
  "\x7b" ++ reprEntries r ++ "\x7d"

/-- The `results_text` built by the batch synthesizer: the first 20 records as
a numbered list, with a trailing count of any further records. -/
def formatResults (rows : List Record) : String :=
  let shown := (rows.take 20).enum.foldl
    (fun acc p => acc ++ "\n" ++ toString (p.1 + 1) ++ ". " ++ reprRecord p.2) ""
  if rows.length > 20 then
    shown ++ "\n... and " ++ toString (rows.length - 20) ++ " more results"
  else shown

/-- Node 3, `response_synthesizer`: on empty results, return the canned
no-results answer with empty structured data and make no generative call;
otherwise call the synthesis model on the question and the formatted rows.
The second component counts the generative-model invocations made
(`chain.invoke` calls; constructing the model client is not a call). -/
def response_synthesizer (synth : String → String → String)
    (state : AgentState) : AgentState × Nat :=
  if state.db_results.isEmpty then
    ({ state with
        final_answer := cannedNoResults state.question,
        structured_data := some [] }, 0)
  else
    let answer := synth state.question (formatResults state.db_results)
    ({ state with final_answer := answer,
                  structured_data := some state.db_results }, 1)

/-- Python's rendering of `state.get("error", "Unknown error")` inside the
failure template: the key is always present, so the default is never used and
`None` would render as the string `"None"`. -/
def errRender : Option String → String
  | none => "None"
  | some s => s

/-- The fixed part of the failure template before the error text. -/
def failurePre : String :=
  "I\x27m sorry, I couldn\x27t process your query after "
    ++ toString MAX_RETRIES ++ " attempts. The last error was: "

/-- The fixed part of the failure template after the error text. -/
def failurePost : String :=
  ". Please try rephrasing your question or ask for help with the specific query."

/-- Terminal node `handle_failure`: the apology naming `MAX_RETRIES` and the
last error, with empty structured data.  The `error` field is left as is. -/
def handle_failure (state : AgentState) : AgentState :=
  { state with
      final_answer := failurePre ++ errRender state.error ++ failurePost,
      structured_data := some [] }

/-- The conditional edge `should_retry`: a pure function of the state.
Retry while a truthy error is present and `retry_count < MAX_RETRIES`; fail
when a truthy error is present and retries are exhausted; otherwise proceed
to synthesis. -/
def should_retry (state : AgentState) : Route :=
  if errTruthy state.error then
    if state.retry_count < MAX_RETRIES then Route.retry else Route.fail
  else Route.synthesize

/-! ### The compiled workflow (`build_agent_graph` + `process_query`) -/

/-- The control loop of the compiled graph:
`query_generator -> query_executor -> should_retry`, looping back to the
generator on RETRY and ending in exactly one terminal node otherwise.
`execIdx` counts completed executor invocations (the store is indexed by it),
and the returned number is the total count of executor invocations.
`fuel` is an upper bound on loop iterations; the retry bound makes
`MAX_RETRIES + 1` always sufficient. -/
def runLoop (llm : String → String → String) (synth : String → String → String)
    (store : Nat → String → Except String (List Record)) :
    Nat → Nat → AgentState → Option (AgentState × Nat)
  | 0, _, _ => none
  | fuel + 1, execIdx, state =>
      let s2 := query_executor (store execIdx) (query_generator llm state)
      match should_retry s2 with
      | Route.retry => runLoop llm synth store fuel (execIdx + 1) s2
      | Route.synthesize => some ((response_synthesizer synth s2).1, execIdx + 1)
      | Route.fail => some (handle_failure s2, execIdx + 1)

/-- The freshly zeroed initial state built by `process_query`. -/
def initialState (question : String) : AgentState :=
  { question := question, cypher_query := "", db_results := [], error := none,
    retry_count := 0, final_answer := "", structured_data := none }

/-- The dictionary returned by `process_query` to its caller. -/
structure ProcessResult where
  question : String
  cypher_query : String
  answer : String
  data : Option (List Record)
  error : Option String
  retries : Nat
deriving Repr

/-- Batch entry point `process_query`: run the state machine to completion
from a fresh state and return the final snapshot.  `none` only when the fuel
bound is exceeded, which the retry bound rules out. -/
def process_query (llm synth : String → String → String)
    (store : Nat → String → Except String (List Record))
    (question : String) : Option ProcessResult :=
  match runLoop llm synth store (MAX_RETRIES + 1) 0 (initialState question) with
  | none => none
  | some (fs, _) =>
      some { question := fs.question, cypher_query := fs.cypher_query,
             answer := fs.final_answer, data := fs.structured_data,
             error := fs.error, retries := fs.retry_count }

/-! ### Streaming entry point -/

/-- Python `key in dict` on a record. -/
def hasKey (r : Record) (k : String) : Bool :=
  r.any (fun kv => kv.1 == k)

/-- The best-effort classification tag attached to the streaming `data`
event, computed from the field names of the first normalized row. -/
def classifyDataType (rows : List Record) : String :=
  match rows with
  | [] => "text"
  | first :: _ =>
      if hasKey first "anomaly_type" || hasKey first "type" || hasKey first "severity" then
        "anomalies"
      else if hasKey first "track_id" || hasKey first "track_name" then
        "tracks"
      else if hasKey first "count" then
        "stats"
      else "text"

/-- The typed events yielded by `process_query_streaming`. -/
inductive SEvent where
  | cypher (query : String)
  | data (rows : List Record) (data_type : String)
  | token (content : String)
  | error (msg : String)
deriving Repr

/-- The canned no-results token of the streaming path. -/
def streamCanned (question : String) : String :=
  "I couldn\x27t find any results for your query: \x27" ++ question
    ++ "\x27. Try rephrasing or ask about anomalies, tracks, or inspections."

/-- Streaming entry point `process_query_streaming`, as the finite list of
events it yields.  `genResult` is the outcome of the single generation
attempt (an exception there is caught by the outer handler and yielded as the
only event); `store` is the single execution attempt; `chunks` are the text
fragments delivered by the streaming synthesis model (only truthy, i.e.
non-empty, contents are yielded as `token` events) and `synthErr` is the
error of a synthesis-side exception, raised after those fragments and caught
by the outer handler.  There is no retry loop in this path. -/
def process_query_streaming (question : String)
    (genResult : Except String String)
    (store : String → Except String (List Record))
    (chunks : List String) (synthErr : Option String) : List SEvent :=
  match genResult with
  | .error e => [SEvent.error e]
  | .ok response =>
      let cypher := extractCypher response
      let qEv := SEvent.cypher cypher
      match store cypher with
      | .error dbe =>
          [qEv, SEvent.error ("Database error: " ++ dbe),
           SEvent.token (streamCanned question)]
      | .ok results =>
          let rows := results.map cleanRecord
          let dEv := SEvent.data rows (classifyDataType rows)
          if rows.isEmpty then
            [qEv, dEv, SEvent.token (streamCanned question)]
          else
            [qEv, dEv]
              ++ (chunks.filter (fun c => !c.isEmpty)).map SEvent.token
              ++ (match synthErr with
                  | some e => [SEvent.error e]
                  | none => [])

/-- The state left by the `(n+1)`-st executor invocation along the batch
loop's trajectory (attempt indices start at 0). -/
def afterAttempt (llm : String → String → String)
    (store : Nat → String → Except String (List Record))
    (question : String) : Nat → AgentState
  | 0 => query_executor (store 0) (query_generator llm (initialState question))
  | n + 1 =>
      query_executor (store (n + 1))
        (query_generator llm (afterAttempt llm store question n))

/-! ### Helper lemmas -/

theorem errTruthy_some_ne {e : String} (h : e ≠ "") : errTruthy (some e) = true := by
  show (!e.isEmpty) = true
  cases he : e.isEmpty with
  | false => rfl
  | true => exact absurd ((String.isEmpty_iff e).mp he) h

theorem errTruthy_iff (e : Option String) :
    errTruthy e = true ↔ ∃ s, e = some s ∧ s ≠ "" := by
  cases e with
  | none => simp [errTruthy]
  | some s =>
      constructor
      · intro h
        refine ⟨s, rfl, fun hs => ?_⟩
        rw [hs] at h
        exact absurd h (by decide)
      · rintro ⟨t, ht, hne⟩
        cases ht
        exact errTruthy_some_ne hne

theorem exec_fail_eq (store1 : String → Except String (List Record))
    (st : AgentState) (e : String) (h : store1 st.cypher_query = Except.error e) :
    query_executor store1 st =
      { st with db_results := [], error := some e,
                retry_count := st.retry_count + 1 } := by
  unfold query_executor
  rw [h]

theorem exec_ok_eq (store1 : String → Except String (List Record))
    (st : AgentState) (rows : List Record) (h : store1 st.cypher_query = Except.ok rows) :
    query_executor store1 st =
      { st with db_results := rows.map cleanRecord, error := none } := by
  unfold query_executor
  rw [h]

/-! ### Claim theorems -/

/-- C5: the router `should_retry` is a pure function of the pipeline state
(in this embedding it maps a state to a `Route` and returns the state
untouched by construction).  It returns RETRY exactly when the error is
non-empty and `retry_count < MAX_RETRIES`, FAIL exactly when the error is
non-empty and `retry_count ≥ MAX_RETRIES` (so at `retry_count = MAX_RETRIES`
with a pending error the decision is FAIL, not RETRY), and SYNTHESIZE exactly
when no non-empty error is present. -/
theorem should_retry_spec (state : AgentState) :
    (should_retry state = Route.retry ↔
      (∃ s, state.error = some s ∧ s ≠ "") ∧ state.retry_count < MAX_RETRIES) ∧
    (should_retry state = Route.fail ↔
      (∃ s, state.error = some s ∧ s ≠ "") ∧ MAX_RETRIES ≤ state.retry_count) ∧
    (should_retry state = Route.synthesize ↔
      ¬ ∃ s, state.error = some s ∧ s ≠ "") := by
  unfold should_retry
  by_cases he : errTruthy state.error = true
  · have hne := (errTruthy_iff state.error).mp he
    rw [if_pos he]
    by_cases hc : state.retry_count < MAX_RETRIES
    · rw [if_pos hc]
      refine ⟨⟨fun _ => ⟨hne, hc⟩, fun _ => rfl⟩, ?_, ?_⟩
      · constructor
        · intro hh; exact absurd hh (by decide)
        · rintro ⟨_, hge⟩; omega
      · constructor
        · intro hh; exact absurd hh (by decide)
        · intro hno; exact absurd hne hno
    · rw [if_neg hc]
      have hge : MAX_RETRIES ≤ state.retry_count := by omega
      refine ⟨?_, ⟨fun _ => ⟨hne, hge⟩, fun _ => rfl⟩, ?_⟩
      · constructor
        · intro hh; exact absurd hh (by decide)
        · rintro ⟨_, hlt⟩; omega
      · constructor
        · intro hh; exact absurd hh (by decide)
        · intro hno; exact absurd hne hno
  · have hnex : ¬ ∃ s, state.error = some s ∧ s ≠ "" :=
      fun hc => he ((errTruthy_iff state.error).mpr hc)
    rw [if_neg he]
    refine ⟨?_, ?_, ⟨fun _ => hnex, fun _ => rfl⟩⟩
    · constructor
      · intro hh; exact absurd hh (by decide)
      · rintro ⟨hex, _⟩; exact absurd hex hnex
    · constructor
      · intro hh; exact absurd hh (by decide)
      · rintro ⟨hex, _⟩; exact absurd hex hnex

/-- C10: the query generator changes only `cypher_query` (set to the
extracted query text) and `error` (cleared to `none`); `question`,
`db_results`, `retry_count`, `final_answer` and `structured_data` are
returned unchanged. -/
theorem query_generator_frame (llm : String → String → String) (state : AgentState) :
    (query_generator llm state).question = state.question ∧
    (query_generator llm state).db_results = state.db_results ∧
    (query_generator llm state).retry_count = state.retry_count ∧
    (query_generator llm state).final_answer = state.final_answer ∧
    (query_generator llm state).structured_data = state.structured_data ∧
    (query_generator llm state).error = none ∧
    (query_generator llm state).cypher_query
      = extractCypher (llm (errorContext state) state.question) :=
  ⟨rfl, rfl, rfl, rfl, rfl, rfl, rfl⟩

/-- C4 counterexample: a successful execution that returns zero rows leaves
both `db_results` and `error` empty, so "exactly one of the two holds, never
neither" is false after this executor run. -/
theorem executor_zero_rows_neither :
    (query_executor (fun _ => Except.ok []) (initialState "list anomalies")).db_results = [] ∧
    (query_executor (fun _ => Except.ok []) (initialState "list anomalies")).error = none :=
  ⟨rfl, rfl⟩

/-- C4 amended: after any executor run, `db_results` and a truthy `error` are
never both present; on failure `db_results` is empty, the store message is
recorded and `retry_count` is incremented; on success `error` is cleared —
but a successful run returning zero rows leaves both empty, so "exactly one"
does not hold in general. -/
theorem query_executor_exclusivity (store : String → Except String (List Record))
    (state : AgentState) :
    (¬ ((query_executor store state).db_results ≠ [] ∧
        errTruthy (query_executor store state).error = true)) ∧
    (∀ e, store state.cypher_query = Except.error e →
      (query_executor store state).db_results = [] ∧
      (query_executor store state).error = some e ∧
      (query_executor store state).retry_count = state.retry_count + 1) ∧
    (∀ rows, store state.cypher_query = Except.ok rows →
      (query_executor store state).error = none ∧
      (query_executor store state).db_results = rows.map cleanRecord) := by
  cases h : store state.cypher_query with
  | ok rows =>
      rw [exec_ok_eq store state rows h]
      refine ⟨?_, ?_, ?_⟩
      · rintro ⟨_, htr⟩
        exact absurd (show errTruthy none = true from htr) (by decide)
      · intro e he
        exact Except.noConfusion he
      · intro rows' h'
        injection h' with hh
        subst hh
        exact ⟨rfl, rfl⟩
  | error e0 =>
      rw [exec_fail_eq store state e0 h]
      refine ⟨?_, ?_, ?_⟩
      · rintro ⟨hdb, _⟩
        exact hdb rfl
      · intro e he
        injection he with hh
        subst hh
        exact ⟨rfl, rfl, rfl⟩
      · intro rows h'
        exact Except.noConfusion h'

/-- Witness for the amended C4 theorem at a concrete failing store. -/
theorem query_executor_exclusivity_witness :
    (query_executor (fun _ => Except.error "Invalid property name")
        (initialState "w")).db_results = [] ∧
    (query_executor (fun _ => Except.error "Invalid property name")
        (initialState "w")).error = some "Invalid property name" ∧
    (query_executor (fun _ => Except.error "Invalid property name")
        (initialState "w")).retry_count = (initialState "w").retry_count + 1 :=
  (query_executor_exclusivity _ _).2.1 "Invalid property name" rfl

/-- C6 counterexample: the normalization is shallow.  A record field holding
a node whose property map contains a temporal value is flattened to a plain
mapping that still contains the store-native temporal handle, so the
normalized row is not plain at every nesting depth. -/
theorem normalization_shallow_cex :
    cleanRecord [("a", NeoVal.node [("t", NeoVal.temporal "2025-01-01T00:00:00")])]
      = [("a", NeoVal.map [("t", NeoVal.temporal "2025-01-01T00:00:00")])] ∧
    isPlainRecord
      (cleanRecord [("a", NeoVal.node [("t", NeoVal.temporal "2025-01-01T00:00:00")])])
      = false :=
  ⟨rfl, rfl⟩

/-- C6 amended: normalization acts on the top level of each field value
only: after it, no field value is a store-native handle at its top level
(temporal values become ISO strings, node objects become plain property
mappings), but values nested inside lists or inside a flattened node mapping
are passed through unchanged and may remain store-native. -/
theorem normalization_top_level (r : Record) :
    (∀ k v, (k, v) ∈ cleanRecord r → notHandleTop v = true) ∧
    (∀ iso, cleanValue (NeoVal.temporal iso) = NeoVal.str iso) ∧
    (∀ props, cleanValue (NeoVal.node props) = NeoVal.map props) := by
  refine ⟨?_, fun _ => rfl, fun _ => rfl⟩
  intro k v hv
  unfold cleanRecord at hv
  obtain ⟨kv, hmem, heq⟩ := List.mem_map.mp hv
  have hv2 : v = cleanValue kv.2 := by
    have := congrArg Prod.snd heq
    simpa using this.symm
  rw [hv2]
  cases kv.2 <;> rfl

/-- Witness for the amended C6 theorem on a concrete record. -/
theorem normalization_top_level_witness :
    notHandleTop (NeoVal.str "2025-01-01T00:00:00") = true :=
  (normalization_top_level [("detected_at", NeoVal.temporal "2025-01-01T00:00:00")]).1
    "detected_at" (NeoVal.str "2025-01-01T00:00:00")
    (by simp [cleanRecord, cleanValue])

set_option maxRecDepth 10000 in
/-- C7: on a successful execution with zero result rows, the batch
synthesizer makes no generative call (the invocation count is 0), sets
`structured_data` to the empty list, and sets `final_answer` to the canned
message, which contains the original question verbatim and suggests
rephrasing. -/
theorem synthesizer_empty_canned (synth : String → String → String)
    (state : AgentState) (h : state.db_results = []) :
    (response_synthesizer synth state).2 = 0 ∧
    (response_synthesizer synth state).1.final_answer = cannedNoResults state.question ∧
    (response_synthesizer synth state).1.structured_data = some [] ∧
    state.question.data <:+: (response_synthesizer synth state).1.final_answer.data ∧
    "rephrasing".data <:+: (response_synthesizer synth state).1.final_answer.data := by
  obtain ⟨q, cq, db, err, rc, fa, sd⟩ := state
  simp only at h
  subst h
  refine ⟨rfl, rfl, rfl, ?_, ?_⟩
  · show q.data <:+: (cannedNoResults q).data
    refine ⟨cannedNoResultsPre.data, cannedNoResultsPost.data, ?_⟩
    rw [cannedNoResults, String.data_append, String.data_append]
  · show "rephrasing".data <:+: (cannedNoResults q).data
    have h1 : "rephrasing".data <:+: cannedNoResultsPost.data := by decide
    have h2 : cannedNoResultsPost.data <:+ (cannedNoResults q).data := by
      rw [cannedNoResults, String.data_append]
      exact List.suffix_append _ _
    exact h1.trans ( List.IsSuffix.isInfix h2)

/-- Witness for C7 at a concrete state with empty results. -/
theorem synthesizer_empty_canned_witness :
    (response_synthesizer (fun _ _ => "SYN") (initialState "Where are the cracks?")).2 = 0 ∧
    (response_synthesizer (fun _ _ => "SYN") (initialState "Where are the cracks?")).1.final_answer
      = cannedNoResults (initialState "Where are the cracks?").question ∧
    (response_synthesizer (fun _ _ => "SYN")
        (initialState "Where are the cracks?")).1.structured_data = some [] ∧
    (initialState "Where are the cracks?").question.data <:+:
      (response_synthesizer (fun _ _ => "SYN")
        (initialState "Where are the cracks?")).1.final_answer.data ∧
    "rephrasing".data <:+:
      (response_synthesizer (fun _ _ => "SYN")
        (initialState "Where are the cracks?")).1.final_answer.data :=
  synthesizer_empty_canned (fun _ _ => "SYN") (initialState "Where are the cracks?") rfl

/-- C9: the streaming `data` event's classification tag is computed from the
field names of the first normalized row with the precedence
anomalies > tracks > stats > text: `anomalies` exactly when the first row has
a field `anomaly_type`, `type` or `severity`; otherwise `tracks` exactly when
it has `track_id` or `track_name`; otherwise `stats` exactly when it has
`count`; and `text` otherwise (in particular on an empty result list). -/
theorem classify_data_type_spec (rows : List Record) :
    (classifyDataType rows = "anomalies" ↔ ∃ first rest, rows = first :: rest ∧
      (hasKey first "anomaly_type" = true ∨ hasKey first "type" = true ∨
        hasKey first "severity" = true)) ∧
    (classifyDataType rows = "tracks" ↔ ∃ first rest, rows = first :: rest ∧
      ¬(hasKey first "anomaly_type" = true ∨ hasKey first "type" = true ∨
        hasKey first "severity" = true) ∧
      (hasKey first "track_id" = true ∨ hasKey first "track_name" = true)) ∧
    (classifyDataType rows = "stats" ↔ ∃ first rest, rows = first :: rest ∧
      ¬(hasKey first "anomaly_type" = true ∨ hasKey first "type" = true ∨
        hasKey first "severity" = true) ∧
      ¬(hasKey first "track_id" = true ∨ hasKey first "track_name" = true) ∧
      hasKey first "count" = true) ∧
    (classifyDataType rows = "text" ↔ (rows = [] ∨ ∃ first rest, rows = first :: rest ∧
      ¬(hasKey first "anomaly_type" = true ∨ hasKey first "type" = true ∨
        hasKey first "severity" = true) ∧
      ¬(hasKey first "track_id" = true ∨ hasKey first "track_name" = true) ∧
      ¬hasKey first "count" = true)) := by
  cases rows with
  | nil =>
      refine ⟨?_, ?_, ?_, ?_⟩
      · constructor
        · intro h; exact absurd h (by decide)
        · rintro ⟨f, r, hc, _⟩; exact List.noConfusion hc
      · constructor
        · intro h; exact absurd h (by decide)
        · rintro ⟨f, r, hc, _⟩; exact List.noConfusion hc
      · constructor
        · intro h; exact absurd h (by decide)
        · rintro ⟨f, r, hc, _⟩; exact List.noConfusion hc
      · exact ⟨fun _ => Or.inl rfl, fun _ => rfl⟩
  | cons first rest =>
      have hcl : classifyDataType (first :: rest) =
          if hasKey first "anomaly_type" || hasKey first "type" || hasKey first "severity"
          then "anomalies"
          else if hasKey first "track_id" || hasKey first "track_name" then "tracks"
          else if hasKey first "count" then "stats"
          else "text" := rfl
      by_cases hA : (hasKey first "anomaly_type" || hasKey first "type" ||
          hasKey first "severity") = true
      · have hA' : hasKey first "anomaly_type" = true ∨ hasKey first "type" = true ∨
            hasKey first "severity" = true := by
          simpa [Bool.or_eq_true, or_assoc] using hA
        rw [hcl, if_pos hA]
        refine ⟨⟨fun _ => ⟨first, rest, rfl, hA'⟩, fun _ => rfl⟩, ?_, ?_, ?_⟩
        · constructor
          · intro h; exact absurd h (by decide)
          · rintro ⟨f, r, hc, hnot, _⟩; cases hc; exact absurd hA' hnot
        · constructor
          · intro h; exact absurd h (by decide)
          · rintro ⟨f, r, hc, hnot, _⟩; cases hc; exact absurd hA' hnot
        · constructor
          · intro h; exact absurd h (by decide)
          · rintro (hnil | ⟨f, r, hc, hnot, _⟩)
            · exact List.noConfusion hnil
            · cases hc; exact absurd hA' hnot
      · have hA' : ¬(hasKey first "anomaly_type" = true ∨ hasKey first "type" = true ∨
            hasKey first "severity" = true) := by
          simpa [Bool.or_eq_true, or_assoc] using hA
        rw [hcl, if_neg hA]
        by_cases hB : (hasKey first "track_id" || hasKey first "track_name") = true
        · have hB' : hasKey first "track_id" = true ∨ hasKey first "track_name" = true := by
            simpa [Bool.or_eq_true] using hB
          rw [if_pos hB]
          refine ⟨?_, ⟨fun _ => ⟨first, rest, rfl, hA', hB'⟩, fun _ => rfl⟩, ?_, ?_⟩
          · constructor
            · intro h; exact absurd h (by decide)
            · rintro ⟨f, r, hc, hk⟩; cases hc; exact absurd hk hA'
          · constructor
            · intro h; exact absurd h (by decide)
            · rintro ⟨f, r, hc, _, hnot, _⟩; cases hc; exact absurd hB' hnot
          · constructor
            · intro h; exact absurd h (by decide)
            · rintro (hnil | ⟨f, r, hc, _, hnot, _⟩)
              · exact List.noConfusion hnil
              · cases hc; exact absurd hB' hnot
        · have hB' : ¬(hasKey first "track_id" = true ∨ hasKey first "track_name" = true) := by
            simpa [Bool.or_eq_true] using hB
          rw [if_neg hB]
          by_cases hC : hasKey first "count" = true
          · rw [if_pos hC]
            refine ⟨?_, ?_, ⟨fun _ => ⟨first, rest, rfl, hA', hB', hC⟩, fun _ => rfl⟩, ?_⟩
            · constructor
              · intro h; exact absurd h (by decide)
              · rintro ⟨f, r, hc, hk⟩; cases hc; exact absurd hk hA'
            · constructor
              · intro h; exact absurd h (by decide)
              · rintro ⟨f, r, hc, _, hk⟩; cases hc; exact absurd hk hB'
            · constructor
              · intro h; exact absurd h (by decide)
              · rintro (hnil | ⟨f, r, hc, _, _, hnot⟩)
                · exact List.noConfusion hnil
                · cases hc; exact absurd hC hnot
          · rw [if_neg hC]
            refine ⟨?_, ?_, ?_,
              ⟨fun _ => Or.inr ⟨first, rest, rfl, hA', hB', hC⟩, fun _ => rfl⟩⟩
            · constructor
              · intro h; exact absurd h (by decide)
              · rintro ⟨f, r, hc, hk⟩; cases hc; exact absurd hk hA'
            · constructor
              · intro h; exact absurd h (by decide)
              · rintro ⟨f, r, hc, _, hk⟩; cases hc; exact absurd hk hB'
            · constructor
              · intro h; exact absurd h (by decide)
              · rintro ⟨f, r, hc, _, _, hk⟩; cases hc; exact absurd hk hC

/-- Witness for C9 on a concrete one-row result with a `count` field. -/
theorem classify_data_type_witness :
    classifyDataType [[("count", NeoVal.int 5)]] = "stats" :=
  (classify_data_type_spec [[("count", NeoVal.int 5)]]).2.2.1.mpr
    ⟨[("count", NeoVal.int 5)], [], rfl, by decide, by decide, by decide⟩

/-- C2 counterexample: when execution raises, the streaming entry point
yields the `error` event and then still yields one more canned `token` event,
so the `error` event is not the last event of the sequence. -/
theorem streaming_event_after_error_cex :
    (process_query_streaming "q1" (Except.ok "MATCH (n) RETURN n")
        (fun _ => Except.error "boom") [] none)[1]?
      = some (SEvent.error "Database error: boom") ∧
    (process_query_streaming "q1" (Except.ok "MATCH (n) RETURN n")
        (fun _ => Except.error "boom") [] none)[2]?
      = some (SEvent.token (streamCanned "q1")) :=
  ⟨rfl, rfl⟩

/-- C2 amended: an `error` event caused by a generation failure is the only
(hence last) event of the streaming sequence, but an `error` event caused by
an execution failure is followed by exactly one further canned `token` event,
which ends the sequence. -/
theorem streaming_error_events (question : String) (genResult : Except String String)
    (store : String → Except String (List Record)) (chunks : List String)
    (synthErr : Option String) :
    (∀ e, genResult = Except.error e →
      process_query_streaming question genResult store chunks synthErr
        = [SEvent.error e]) ∧
    (∀ response dbe, genResult = Except.ok response →
      store (extractCypher response) = Except.error dbe →
      process_query_streaming question genResult store chunks synthErr
        = [SEvent.cypher (extractCypher response),
           SEvent.error ("Database error: " ++ dbe),
           SEvent.token (streamCanned question)]) := by
  constructor
  · intro e he
    subst he
    rfl
  · intro response dbe hg hs
    subst hg
    simp only [process_query_streaming, hs]

/-- Witness for the amended C2 theorem: a generation failure yields a single
terminal `error` event. -/
theorem streaming_error_events_witness :
    process_query_streaming "q2" (Except.error "LLM quota exceeded")
        (fun _ => Except.ok []) [] none = [SEvent.error "LLM quota exceeded"] :=
  (streaming_error_events "q2" (Except.error "LLM quota exceeded")
      (fun _ => Except.ok []) [] none).1 "LLM quota exceeded" rfl

/-! ### String lemmas for the fence-stripping claim -/

theorem pyStripL_within (l : List Char) : pyStripL l <:+: l := by
  have h1 : List.rdropWhile isPySpace (List.dropWhile isPySpace l)
      <+: List.dropWhile isPySpace l :=
    List.rdropWhile_prefix isPySpace (List.dropWhile isPySpace l)
  have h2 : List.dropWhile isPySpace l <:+ l := List.dropWhile_suffix isPySpace
  have h1' : pyStripL l <:+: List.dropWhile isPySpace l := List.IsPrefix.isInfix h1
  have h2' : List.dropWhile isPySpace l <:+: l := List.IsSuffix.isInfix h2
  exact h1'.trans h2'

theorem pyStrip_data (s : String) : (pyStrip s).data = pyStripL s.data := rfl

theorem not_fence_pyStrip {s : String} (h : ¬ "```".data <:+: s.data) :
    ¬ "```".data <:+: (pyStrip s).data := by
  rw [pyStrip_data]
  exact fun hc => h (hc.trans (pyStripL_within s.data))

theorem fence_of_fenceCy {l : List Char} (h : "```cypher".data <:+: l) :
    "```".data <:+: l := by
  have hp : "```".data <+: "```cypher".data := by decide
  have hp' : "```".data <:+: "```cypher".data := List.IsPrefix.isInfix hp
  exact hp'.trans h

theorem extractCypher_no_fence {s : String} (h : ¬ "```".data <:+: s.data) :
    extractCypher s = pyStrip s := by
  have h1 : ¬ "```".data <:+: (pyStrip s).data := not_fence_pyStrip h
  have h2 : ¬ "```cypher".data <:+: (pyStrip s).data := fun hc => h1 (fence_of_fenceCy hc)
  simp only [extractCypher]
  rw [if_neg h2, if_neg h1]

theorem dropWhile_eq_self_of_prefix {p : Char → Bool} {l₁ l₂ : List Char}
    (hpre : l₁ <+: l₂) (h : List.dropWhile p l₂ = l₂) : List.dropWhile p l₁ = l₁ := by
  cases l₁ with
  | nil => rfl
  | cons a as =>
      obtain ⟨t, ht⟩ := hpre
      have hpa : p a = false := by
        by_contra hcon
        have hpa' : p a = true := by
          revert hcon
          cases p a <;> simp
        have hlen : (List.dropWhile p (as ++ t)).length ≤ (as ++ t).length :=
          List.IsSuffix.length_le (List.dropWhile_suffix p)
        rw [← ht, List.cons_append, List.dropWhile_cons, if_pos hpa'] at h
        have hlh := congrArg List.length h
        rw [List.length_cons] at hlh
        omega
      rw [List.dropWhile_cons, if_neg (by simp [hpa])]

theorem pyStripL_idem (l : List Char) : pyStripL (pyStripL l) = pyStripL l := by
  unfold pyStripL
  have hdd : List.dropWhile isPySpace (List.dropWhile isPySpace l)
      = List.dropWhile isPySpace l :=
    List.dropWhile_idempotent _ _
  have hdrop : List.dropWhile isPySpace
        (List.rdropWhile isPySpace (List.dropWhile isPySpace l))
      = List.rdropWhile isPySpace (List.dropWhile isPySpace l) :=
    dropWhile_eq_self_of_prefix (List.rdropWhile_prefix _ _) hdd
  rw [hdrop, List.rdropWhile_idempotent]

theorem pyStrip_idem (s : String) : pyStrip (pyStrip s) = pyStrip s := by
  have h0 : pyStrip (pyStrip s) = String.mk (pyStripL (pyStripL s.data)) := rfl
  rw [h0, pyStripL_idem]
  rfl

set_option maxRecDepth 10000 in
/-- C8: on a model response containing no code fence (no occurrence of the
three-backtick delimiter), the generator's fence stripping is exactly
`strip()` — the identity after trimming — and hence idempotent on such input;
a query wrapped in a `cypher`-tagged fence or in a plain fence has the fence
and language tag removed. -/
theorem fence_stripping_spec :
    (∀ s : String, ¬ "```".data <:+: s.data → extractCypher s = pyStrip s) ∧
    (∀ s : String, ¬ "```".data <:+: s.data →
      extractCypher (extractCypher s) = extractCypher s) ∧
    extractCypher "```cypher\nMATCH (a:Anomaly) RETURN a\n```"
      = "MATCH (a:Anomaly) RETURN a" ∧
    extractCypher "```\nMATCH (a:Anomaly) RETURN a\n```"
      = "MATCH (a:Anomaly) RETURN a" := by
  refine ⟨fun s h => extractCypher_no_fence h, fun s h => ?_, ?_, ?_⟩
  · rw [extractCypher_no_fence h, extractCypher_no_fence (not_fence_pyStrip h),
      pyStrip_idem]
  · rfl
  · rfl

set_option maxRecDepth 10000 in
/-- Witness for C8 on a concrete fence-free response. -/
theorem fence_stripping_spec_witness :
    extractCypher "MATCH (s:Segment) RETURN s" = pyStrip "MATCH (s:Segment) RETURN s" :=
  fence_stripping_spec.1 "MATCH (s:Segment) RETURN s" (by decide)

/-! ### Loop-unrolling lemmas for the batch orchestrator -/

theorem runLoop_succ (llm synth : String → String → String)
    (store : Nat → String → Except String (List Record))
    (fuel execIdx : Nat) (state : AgentState) :
    runLoop llm synth store (fuel + 1) execIdx state =
      match should_retry (query_executor (store execIdx) (query_generator llm state)) with
      | Route.retry =>
          runLoop llm synth store fuel (execIdx + 1)
            (query_executor (store execIdx) (query_generator llm state))
      | Route.synthesize =>
          some ((response_synthesizer synth
            (query_executor (store execIdx) (query_generator llm state))).1, execIdx + 1)
      | Route.fail =>
          some (handle_failure
            (query_executor (store execIdx) (query_generator llm state)), execIdx + 1) :=
  rfl

theorem runLoop_retry_step (llm synth : String → String → String)
    (store : Nat → String → Except String (List Record))
    (fuel execIdx : Nat) (state : AgentState)
    (h : should_retry (query_executor (store execIdx) (query_generator llm state))
      = Route.retry) :
    runLoop llm synth store (fuel + 1) execIdx state
      = runLoop llm synth store fuel (execIdx + 1)
          (query_executor (store execIdx) (query_generator llm state)) := by
  rw [runLoop_succ, h]

theorem runLoop_fail_step (llm synth : String → String → String)
    (store : Nat → String → Except String (List Record))
    (fuel execIdx : Nat) (state : AgentState)
    (h : should_retry (query_executor (store execIdx) (query_generator llm state))
      = Route.fail) :
    runLoop llm synth store (fuel + 1) execIdx state
      = some (handle_failure
          (query_executor (store execIdx) (query_generator llm state)), execIdx + 1) := by
  rw [runLoop_succ, h]

theorem afterAttempt_fail_fields (llm : String → String → String)
    (store : Nat → String → Except String (List Record))
    (errOf : Nat → String → String)
    (hstore : ∀ n q, store n q = Except.error (errOf n q)) (question : String) :
    ∀ n, (afterAttempt llm store question n).retry_count = n + 1 ∧
      (afterAttempt llm store question n).error
        = some (errOf n (afterAttempt llm store question n).cypher_query) ∧
      (afterAttempt llm store question n).question = question ∧
      (afterAttempt llm store question n).db_results = [] := by
  intro n
  induction n with
  | zero =>
      have e0 : afterAttempt llm store question 0
          = query_executor (store 0) (query_generator llm (initialState question)) := rfl
      rw [e0, exec_fail_eq _ _ _ (hstore 0 _)]
      exact ⟨rfl, rfl, rfl, rfl⟩
  | succ n ih =>
      obtain ⟨ihrc, _, ihq, _⟩ := ih
      have es : afterAttempt llm store question (n + 1)
          = query_executor (store (n + 1))
              (query_generator llm (afterAttempt llm store question n)) := rfl
      rw [es, exec_fail_eq _ _ _ (hstore (n + 1) _)]
      refine ⟨?_, rfl, ?_, rfl⟩
      · show (query_generator llm (afterAttempt llm store question n)).retry_count + 1
          = n + 1 + 1
        rw [show (query_generator llm (afterAttempt llm store question n)).retry_count
            = (afterAttempt llm store question n).retry_count from rfl, ihrc]
      · show (query_generator llm (afterAttempt llm store question n)).question = question
        rw [show (query_generator llm (afterAttempt llm store question n)).question
            = (afterAttempt llm store question n).question from rfl, ihq]

theorem should_retry_of_error (st : AgentState) (e : String)
    (herr : st.error = some e) (hene : e ≠ "") :
    should_retry st = if st.retry_count < MAX_RETRIES then Route.retry else Route.fail := by
  unfold should_retry
  have ht : errTruthy st.error = true := by
    rw [herr]
    exact errTruthy_some_ne hene
  rw [if_pos ht]

theorem runLoop_allFail (llm synth : String → String → String)
    (store : Nat → String → Except String (List Record))
    (errOf : Nat → String → String)
    (hstore : ∀ n q, store n q = Except.error (errOf n q))
    (hne : ∀ n q, errOf n q ≠ "") (question : String)
    (fuel : Nat) (hfuel : 3 ≤ fuel) :
    runLoop llm synth store fuel 0 (initialState question)
      = some (handle_failure (afterAttempt llm store question 2), 3) := by
  obtain ⟨k, rfl⟩ : ∃ k, fuel = k + 1 + 1 + 1 := ⟨fuel - 3, by omega⟩
  obtain ⟨hrc0, herr0, _, _⟩ := afterAttempt_fail_fields llm store errOf hstore question 0
  obtain ⟨hrc1, herr1, _, _⟩ := afterAttempt_fail_fields llm store errOf hstore question 1
  obtain ⟨hrc2, herr2, _, _⟩ := afterAttempt_fail_fields llm store errOf hstore question 2
  have hr0 : should_retry (afterAttempt llm store question 0) = Route.retry := by
    rw [should_retry_of_error _ _ herr0 (hne 0 _), hrc0]
    decide
  have hr1 : should_retry (afterAttempt llm store question 1) = Route.retry := by
    rw [should_retry_of_error _ _ herr1 (hne 1 _), hrc1]
    decide
  have hr2 : should_retry (afterAttempt llm store question 2) = Route.fail := by
    rw [should_retry_of_error _ _ herr2 (hne 2 _), hrc2]
    decide
  rw [runLoop_retry_step llm synth store (k + 1 + 1) 0 (initialState question) hr0]
  show runLoop llm synth store (k + 1 + 1) 1 (afterAttempt llm store question 0)
      = some (handle_failure (afterAttempt llm store question 2), 3)
  rw [runLoop_retry_step llm synth store (k + 1) 1 (afterAttempt llm store question 0) hr1]
  show runLoop llm synth store (k + 1) 2 (afterAttempt llm store question 1)
      = some (handle_failure (afterAttempt llm store question 2), 3)
  rw [runLoop_fail_step llm synth store k 2 (afterAttempt llm store question 1) hr2]
  rfl

/-- C1: in any batch run where every executor invocation fails (each store
call raises with a non-empty message; the router treats an empty `str(e)` as
no error), the executor is invoked exactly `MAX_RETRIES = 3` times no matter
how much fuel the loop is given — so a 4th execution attempt never happens —
and the router returns FAIL, never RETRY, on the state produced by the 3rd
failure, whose `retry_count` equals `MAX_RETRIES`. -/
theorem bounded_attempts (llm synth : String → String → String)
    (store : Nat → String → Except String (List Record))
    (errOf : Nat → String → String)
    (hstore : ∀ n q, store n q = Except.error (errOf n q))
    (hne : ∀ n q, errOf n q ≠ "") (question : String)
    (fuel : Nat) (hfuel : MAX_RETRIES ≤ fuel) :
    runLoop llm synth store fuel 0 (initialState question)
      = some (handle_failure (afterAttempt llm store question 2), MAX_RETRIES) ∧
    (afterAttempt llm store question 2).retry_count = MAX_RETRIES ∧
    should_retry (afterAttempt llm store question 2) = Route.fail ∧
    should_retry (afterAttempt llm store question 2) ≠ Route.retry := by
  obtain ⟨hrc2, herr2, _, _⟩ := afterAttempt_fail_fields llm store errOf hstore question 2
  have hr2 : should_retry (afterAttempt llm store question 2) = Route.fail := by
    rw [should_retry_of_error _ _ herr2 (hne 2 _), hrc2]
    decide
  refine ⟨runLoop_allFail llm synth store errOf hstore hne question fuel hfuel, ?_, hr2, ?_⟩
  · rw [hrc2]
    decide
  · rw [hr2]
    decide

/-- Witness for C1: a concrete run whose three execution attempts all fail
with a syntax error. -/
theorem bounded_attempts_witness :
    runLoop (fun _ _ => "RETURN 1") (fun _ _ => "ok")
        (fun _ _ => Except.error "Neo.ClientError.Statement.SyntaxError") 4 0
        (initialState "count anomalies")
      = some (handle_failure
          (afterAttempt (fun _ _ => "RETURN 1")
            (fun _ _ => Except.error "Neo.ClientError.Statement.SyntaxError")
            "count anomalies" 2), MAX_RETRIES) ∧
    (afterAttempt (fun _ _ => "RETURN 1")
        (fun _ _ => Except.error "Neo.ClientError.Statement.SyntaxError")
        "count anomalies" 2).retry_count = MAX_RETRIES ∧
    should_retry (afterAttempt (fun _ _ => "RETURN 1")
        (fun _ _ => Except.error "Neo.ClientError.Statement.SyntaxError")
        "count anomalies" 2) = Route.fail ∧
    should_retry (afterAttempt (fun _ _ => "RETURN 1")
        (fun _ _ => Except.error "Neo.ClientError.Statement.SyntaxError")
        "count anomalies" 2) ≠ Route.retry := by
  have hc : ("Neo.ClientError.Statement.SyntaxError" : String) ≠ "" := by decide
  exact bounded_attempts (fun _ _ => "RETURN 1") (fun _ _ => "ok")
    (fun _ _ => Except.error "Neo.ClientError.Statement.SyntaxError")
    (fun _ _ => "Neo.ClientError.Statement.SyntaxError")
    (fun _ _ => rfl) (fun _ _ => hc) "count anomalies" 4 (by decide)

/-- C3 counterexample: on a run whose store always raises `boom`, the result
object returned by `process_query` exposes the raw store error text outside
the final answer: its `error` field is exactly `some "boom"` (in addition to
the text embedded in the failure answer). -/
theorem raw_error_in_result_cex :
    (process_query (fun _ _ => "MATCH (n) RETURN n") (fun _ _ => "ok")
        (fun _ _ => Except.error "boom") "q3").map ProcessResult.error
      = some (some "boom") ∧
    (process_query (fun _ _ => "MATCH (n) RETURN n") (fun _ _ => "ok")
        (fun _ _ => Except.error "boom") "q3").map ProcessResult.answer
      = some (failurePre ++ "boom" ++ failurePost) :=
  ⟨rfl, rfl⟩

/-- C3 amended: an execution error never escapes `process_query` as an
exception — after exhaustion the caller receives a result object whose
answer is the Failure Handler message embedding the last error text — but
the raw store error text is additionally surfaced in the result's `error`
field, not only inside the final answer. -/
theorem execution_error_containment (llm synth : String → String → String)
    (store : Nat → String → Except String (List Record))
    (errOf : Nat → String → String)
    (hstore : ∀ n q, store n q = Except.error (errOf n q))
    (hne : ∀ n q, errOf n q ≠ "") (question : String) :
    process_query llm synth store question
      = some { question := question,
               cypher_query := (afterAttempt llm store question 2).cypher_query,
               answer := failurePre
                 ++ errOf 2 (afterAttempt llm store question 2).cypher_query
                 ++ failurePost,
               data := some [],
               error := some (errOf 2 (afterAttempt llm store question 2).cypher_query),
               retries := MAX_RETRIES } ∧
    (errOf 2 (afterAttempt llm store question 2).cypher_query).data
      <:+: (failurePre ++ errOf 2 (afterAttempt llm store question 2).cypher_query
            ++ failurePost).data := by
  obtain ⟨hrc2, herr2, hq2, _⟩ := afterAttempt_fail_fields llm store errOf hstore question 2
  constructor
  · unfold process_query
    rw [runLoop_allFail llm synth store errOf hstore hne question (MAX_RETRIES + 1)
      (by decide)]
    show some (ProcessResult.mk
        (handle_failure (afterAttempt llm store question 2)).question
        (handle_failure (afterAttempt llm store question 2)).cypher_query
        (handle_failure (afterAttempt llm store question 2)).final_answer
        (handle_failure (afterAttempt llm store question 2)).structured_data
        (handle_failure (afterAttempt llm store question 2)).error
        (handle_failure (afterAttempt llm store question 2)).retry_count)
        = _
    rw [Option.some.injEq, ProcessResult.mk.injEq]
    refine ⟨hq2, rfl, ?_, rfl, ?_, ?_⟩
    · show failurePre ++ errRender (afterAttempt llm store question 2).error ++ failurePost
        = _
      rw [herr2]
      rfl
    · show (afterAttempt llm store question 2).error = _
      exact herr2
    · show (afterAttempt llm store question 2).retry_count = MAX_RETRIES
      rw [hrc2]
      decide
  · refine ⟨failurePre.data, failurePost.data, ?_⟩
    rw [String.data_append, String.data_append]

/-- Witness for the amended C3 theorem at a concrete always-failing store. -/
theorem execution_error_containment_witness :
    process_query (fun _ _ => "MATCH (t:Track) RETURN t") (fun _ _ => "fine")
        (fun _ _ => Except.error "unknown property") "q4"
      = some { question := "q4",
               cypher_query :=
                 (afterAttempt (fun _ _ => "MATCH (t:Track) RETURN t")
                   (fun _ _ => Except.error "unknown property") "q4" 2).cypher_query,
               answer := failurePre ++ "unknown property" ++ failurePost,
               data := some [],
               error := some "unknown property",
               retries := MAX_RETRIES } ∧
    "unknown property".data
      <:+: (failurePre ++ "unknown property" ++ failurePost).data := by
  have hc : ("unknown property" : String) ≠ "" := by decide
  exact execution_error_containment (fun _ _ => "MATCH (t:Track) RETURN t")
    (fun _ _ => "fine") (fun _ _ => Except.error "unknown property")
    (fun _ _ => "unknown property") (fun _ _ => rfl) (fun _ _ => hc) "q4"

/-- Witness for C5 at a concrete state with a pending error and exhausted
retries: the decision is FAIL. -/
theorem should_retry_spec_witness :
    should_retry { question := "w5", cypher_query := "RETURN 2", db_results := [],
                   error := some "type mismatch", retry_count := 3,
                   final_answer := "", structured_data := none } = Route.fail :=
  (should_retry_spec { question := "w5", cypher_query := "RETURN 2", db_results := [],
                       error := some "type mismatch", retry_count := 3,
                       final_answer := "", structured_data := none }).2.1.mpr
    ⟨⟨"type mismatch", rfl, by decide⟩, by decide⟩

/-- Witness for C10 at a concrete generator call. -/
theorem query_generator_frame_witness :
    (query_generator (fun _ _ => "MATCH (x) RETURN x") (initialState "w10")).error = none ∧
    (query_generator (fun _ _ => "MATCH (x) RETURN x")
        (initialState "w10")).retry_count = (initialState "w10").retry_count :=
  ⟨(query_generator_frame (fun _ _ => "MATCH (x) RETURN x") (initialState "w10")).2.2.2.2.2.1,
   (query_generator_frame (fun _ _ => "MATCH (x) RETURN x") (initialState "w10")).2.2.1⟩
